import Mathlib

/-!
Shallow embedding of the flet control layer (fork omamkaz/flet), covering the
pieces of the source that the verified claims are about:

* the per-control attribute store (`_set_attr` / `_get_attr` /
  `_set_attr_json`) of the base `Control` class — that class is not part of
  the sources, so it is modelled from the specification document;
* `AppBar` (app_bar.py), `AlertDialog` (alert_dialog.py), `Badge` (badge.py),
  `SafeArea` (safe_area.py) together with `ConstrainedControl.before_update`
  (constrained_control.py), `AutoComplete` (auto_complete.py) and
  `Flashlight` (flashlight.py).

Python exceptions are modelled with `Except PyErr`; machine numbers with
`Rat`/`Int`; optional values with `Option`.
-/

/-- Exceptions the embedded code can raise. -/
inductive PyErr
  | assertionError
  | attributeError
  | typeError
deriving DecidableEq

/-- A child control, projected to the pieces of state the embedded methods
touch: its internal relationship-tag attribute `"n"` (written by
`_set_attr_internal("n", ...)`) and its `"visible"` attribute (read by
`SafeArea.before_update` through the `visible` property). -/
structure Ctrl where
  n : Option String
  visibleAttr : Option Bool
deriving DecidableEq

/-- Models `child._set_attr_internal("n", value)`: tag a child control with
its relationship role string. -/
def Ctrl.setTag (c : Ctrl) (v : String) : Ctrl :=
  { c with n := some v }

/-- Modelled from the spec: `Control.visible` (control.py is not under the
sources) — a `bool`-typed attribute defaulting to `True`. -/
def Ctrl.visible (c : Ctrl) : Bool :=
  c.visibleAttr.getD true

/-- `AutoCompleteSuggestion` (auto_complete.py lines 12-15): a dataclass whose
`key` and `value` fields both default to `None`. -/
structure AutoCompleteSuggestion where
  key : Option String
  value : Option String
deriving DecidableEq

/-- An opaque `TextStyle` value (text_style.py is not under the sources); the
embedded code only tests it with `isinstance` and JSON-encodes it. -/
structure TextStyle where
  tok : Nat
deriving DecidableEq

/-- An opaque padding value (`PaddingValue`). -/
structure PaddingVal where
  tok : Nat
deriving DecidableEq

/-- An opaque `OutlinedBorder` value. -/
structure OutlinedBorder where
  tok : Nat
deriving DecidableEq

/-- An opaque structured value (offsets, alignments, rotate/scale/animate
specifications): the embedded code only JSON-encodes these. -/
structure StructVal where
  tok : Nat
deriving DecidableEq

/-- A value stored in a control's attribute map.  The store is permissive: it
holds primitives (string / int / float / bool), JSON-encoded structured
values, and — because `_set_attr` accepts any object — control references and
lists of controls. -/
inductive AttrVal
  | str (s : String)
  | intVal (n : Int)
  | floatVal (q : Rat)
  | boolVal (b : Bool)
  | ctrlVal (c : Ctrl)
  | ctrlListVal (cs : List Ctrl)
  | jsonStyle (t : TextStyle)
  | jsonPad (p : PaddingVal)
  | jsonBorder (b : OutlinedBorder)
  | jsonStruct (v : StructVal)
  | jsonSuggestions (l : List AutoCompleteSuggestion)
deriving DecidableEq

/-- The per-control attribute map: logical property name to stored value. -/
def AttrMap := List (String × AttrVal)

/-- Lookup of an attribute by name. -/
def lookupAttr : AttrMap → String → Option AttrVal
  | [], _ => none
  | (k, v) :: rest, name => if k == name then some v else lookupAttr rest name

/-- Remove every entry with the given name. -/
def removeAttr : AttrMap → String → AttrMap
  | [], _ => []
  | (k, v) :: rest, name =>
    if k == name then removeAttr rest name else (k, v) :: removeAttr rest name

/-- Modelled from the spec: `Control._set_attr` (control.py is not under the
sources) — stores or clears a value; storing `None` clears the entry, so a
`None`-valued property is omitted from the serialized attribute map. -/
def setAttr (m : AttrMap) (name : String) (v : Option AttrVal) : AttrMap :=
  match v with
  | none => removeAttr m name
  | some a => (name, a) :: removeAttr m name

/-- The `data_type` argument of `_get_attr`. -/
inductive DataType
  | string
  | bool
  | float
  | int
deriving DecidableEq

/-- Modelled from the spec: the type coercion `Control._get_attr` applies
(control.py is not under the sources) — a numeric value read back through a
`data_type="float"` getter comes back as a float; a string read through a
`data_type="bool"` getter compares against `"true"`. -/
def coerce : DataType → AttrVal → AttrVal
  | .float, .intVal n => .floatVal (n : Rat)
  | .bool, .str s => .boolVal (s.toLower == "true")
  | _, v => v

/-- Modelled from the spec: `Control._get_attr` (control.py is not under the
sources) — retrieves with type coercion and a fallback default if absent. -/
def getAttr (m : AttrMap) (name : String) (dt : DataType) (defVal : Option AttrVal) :
    Option AttrVal :=
  match lookupAttr m name with
  | none => defVal
  | some v => some (coerce dt v)

/-- Modelled from the spec: `Control._set_attr_json` (control.py is not under
the sources) — JSON-encodes a non-`None` structured value into a string
attribute (represented here by the `json*` constructors of `AttrVal`), and
clears the entry when the value is `None`. -/
def setAttrJson (m : AttrMap) (name : String) (v : Option AttrVal) : AttrMap :=
  setAttr m name v

/-! ## AppBar (app_bar.py) -/

/-- The state of an `AppBar` instance: its attribute map plus the instance
variables assigned by the setters that store into instance variables
(`leading`, `title`, `actions`, `title_text_style`, `toolbar_text_style`,
`shape`).  Note app_bar.py line 457 stores `actions` exactly as given, so the
slot can hold Python `None`. -/
structure AppBarObj where
  attrs : AttrMap
  leading : Option Ctrl
  title : Option Ctrl
  actions : Option (List Ctrl)
  titleTextStyle : Option TextStyle
  toolbarTextStyle : Option TextStyle
  shape : Option OutlinedBorder

/-- `AppBar.leading` setter (line 152): `self.__leading = value`. -/
def AppBarObj.setLeading (ab : AppBarObj) (v : Option Ctrl) : AppBarObj :=
  { ab with leading := v }

/-- `AppBar.title` setter (line 273): `self.__title = value`. -/
def AppBarObj.setTitle (ab : AppBarObj) (v : Option Ctrl) : AppBarObj :=
  { ab with title := v }

/-- `AppBar.actions` setter (line 457): `self.__actions = value` — stores the
value as given, with no replacement of `None` by an empty list. -/
def AppBarObj.setActions (ab : AppBarObj) (v : Option (List Ctrl)) : AppBarObj :=
  { ab with actions := v }

/-- `AppBar.bgcolor` setter (line 331): `self._set_attr("bgcolor", value)`. -/
def AppBarObj.setBgcolor (ab : AppBarObj) (v : Option String) : AppBarObj :=
  { ab with attrs := setAttr ab.attrs "bgcolor" (v.map .str) }

/-- `AppBar.bgcolor` getter (line 327): `self._get_attr("bgcolor")`. -/
def AppBarObj.bgcolor (ab : AppBarObj) : Option AttrVal :=
  getAttr ab.attrs "bgcolor" .string none

/-- A Python number (`int` or `float`), as passed to `OptionalNumber`
setters. -/
inductive NumVal
  | intN (n : Int)
  | floatN (q : Rat)
deriving DecidableEq

/-- The attribute-store representation of a Python number. -/
def NumVal.toAttr : NumVal → AttrVal
  | .intN n => .intVal n
  | .floatN q => .floatVal q

/-- `AppBar.elevation` setter (line 345): `self._set_attr("elevation", value)`. -/
def AppBarObj.setElevation (ab : AppBarObj) (v : Option NumVal) : AppBarObj :=
  { ab with attrs := setAttr ab.attrs "elevation" (v.map NumVal.toAttr) }

/-- `AppBar.elevation` getter (line 341):
`self._get_attr("elevation", data_type="float")`. -/
def AppBarObj.elevation (ab : AppBarObj) : Option AttrVal :=
  getAttr ab.attrs "elevation" .float none

/-- `AppBar.toolbar_opacity` setter (lines 195-199):
`assert value is None or (0 >= value >= 1)` — the chained comparison is
`0 >= value and value >= 1` — then `self._set_attr("toolbarOpacity", value)`. -/
def AppBarObj.setToolbarOpacity (ab : AppBarObj) (value : Option Rat) :
    Except PyErr AppBarObj :=
  match value with
  | none => .ok { ab with attrs := setAttr ab.attrs "toolbarOpacity" none }
  | some q =>
    if 0 ≥ q ∧ q ≥ 1 then
      .ok { ab with attrs := setAttr ab.attrs "toolbarOpacity" (some (.floatVal q)) }
    else .error .assertionError

/-- `AppBar.title_text_style` setter (line 227). -/
def AppBarObj.setTitleTextStyle (ab : AppBarObj) (v : Option TextStyle) : AppBarObj :=
  { ab with titleTextStyle := v }

/-- `AppBar.toolbar_text_style` setter (line 241). -/
def AppBarObj.setToolbarTextStyle (ab : AppBarObj) (v : Option TextStyle) : AppBarObj :=
  { ab with toolbarTextStyle := v }

/-- `AppBar.shape` setter (line 213). -/
def AppBarObj.setShape (ab : AppBarObj) (v : Option OutlinedBorder) : AppBarObj :=
  { ab with shape := v }

/-- `AppBar.before_update` (lines 118-125): after the superclass hook (a
no-op for the attributes modelled here), each of the three structured
properties is JSON-serialized only under an `isinstance` guard, i.e. only
when the instance variable currently holds a value. -/
def AppBarObj.beforeUpdate (ab : AppBarObj) : AppBarObj :=
  let m := ab.attrs
  let m := match ab.titleTextStyle with
    | some ts => setAttrJson m "titleTextStyle" (some (.jsonStyle ts))
    | none => m
  let m := match ab.toolbarTextStyle with
    | some ts => setAttrJson m "toolbarTextStyle" (some (.jsonStyle ts))
    | none => m
  let m := match ab.shape with
    | some sh => setAttrJson m "shape" (some (.jsonBorder sh))
    | none => m
  { ab with attrs := m }

/-- `AppBar._get_children` (lines 127-138): a truthy `leading` (a control
object, i.e. not `None`) is tagged `"leading"` and appended, then `title`
tagged `"title"`, then `for action in self.__actions` tags each action
`"action"` — iterating `None` raises `TypeError`. -/
def AppBarObj.getChildren (ab : AppBarObj) : Except PyErr (List Ctrl) :=
  let children : List Ctrl := []
  let children := children ++ (match ab.leading with
    | some l => [l.setTag "leading"]
    | none => [])
  let children := children ++ (match ab.title with
    | some t => [t.setTag "title"]
    | none => [])
  match ab.actions with
  | none => .error .typeError
  | some acts => .ok (children ++ acts.map (fun a => a.setTag "action"))

/-- `AppBar.__init__` (lines 88-113), restricted to the modelled parameters;
every other parameter keeps its default `None`, whose setter writes no
attribute entry.  Assignments go through the property setters in source
order. -/
def AppBar.new (leading title : Option Ctrl) (bgcolor : Option String)
    (actions : Option (List Ctrl)) (toolbarOpacity : Option Rat)
    (titleTextStyle toolbarTextStyle : Option TextStyle)
    (shape : Option OutlinedBorder) : Except PyErr AppBarObj := do
  let ab : AppBarObj := ⟨[], none, none, none, none, none, none⟩
  let ab := ab.setLeading leading
  let ab := ab.setTitle title
  let ab := ab.setBgcolor bgcolor
  let ab := ab.setActions actions
  let ab ← ab.setToolbarOpacity toolbarOpacity
  let ab := ab.setTitleTextStyle titleTextStyle
  let ab := ab.setToolbarTextStyle toolbarTextStyle
  let ab := ab.setShape shape
  pure ab

/-- `AppBar()` with every constructor argument left at its default. -/
def AppBar.newDefault : Except PyErr AppBarObj :=
  AppBar.new none none none none none none none none

/-! ## AlertDialog (alert_dialog.py) -/

/-- The instance variables read by `AlertDialog.before_update` lines 150-161
after the assertion: the padding/shape/alignment values and the two text
styles.  Grouped into one record because no line of the source class ever
assigns any of them (the property setters store through `_set_attr`
instead), so in every reachable object the whole group is unassigned. -/
structure AlertDialogJsonSlots where
  actionsPadding : Option PaddingVal
  contentPadding : Option PaddingVal
  titlePadding : Option PaddingVal
  shapeVal : Option OutlinedBorder
  insetPadding : Option PaddingVal
  iconPadding : Option PaddingVal
  actionButtonPadding : Option PaddingVal
  alignment : Option StructVal
  contentTextStyle : Option TextStyle
  titleTextStyle : Option TextStyle

/-- The state of an `AlertDialog` instance.  The `*Slot` fields model the
Python instance attributes `_AlertDialog__title`, `_AlertDialog__content`
and `_AlertDialog__actions`: the outer `Option` is `none` when the attribute
was never assigned, in which case reading it raises `AttributeError`.  None
of the source's methods assigns them — the property setters (lines 301-303,
329-331, 357-359) store through `self._set_attr` into the attribute map. -/
structure AlertDialogObj where
  attrs : AttrMap
  titleSlot : Option (Option Ctrl)
  contentSlot : Option (Option Ctrl)
  actionsSlot : Option (Option (List Ctrl))
  jsonSlots : Option AlertDialogJsonSlots

/-- `AlertDialog.title` setter (line 303): `self._set_attr("title", value)` —
the private slot read by `before_update` is left untouched. -/
def AlertDialogObj.setTitle (d : AlertDialogObj) (v : Option Ctrl) : AlertDialogObj :=
  { d with attrs := setAttr d.attrs "title" (v.map .ctrlVal) }

/-- `AlertDialog.content` setter (line 331): `self._set_attr("content", value)`. -/
def AlertDialogObj.setContent (d : AlertDialogObj) (v : Option Ctrl) : AlertDialogObj :=
  { d with attrs := setAttr d.attrs "content" (v.map .ctrlVal) }

/-- `AlertDialog.actions` setter (line 359): `self._set_attr("actions", value)`. -/
def AlertDialogObj.setActions (d : AlertDialogObj) (v : Option (List Ctrl)) :
    AlertDialogObj :=
  { d with attrs := setAttr d.attrs "actions" (v.map .ctrlListVal) }

/-- The assertion expression of `AlertDialog.before_update` (lines 147-149):
`self.__title or self.__content or self.__actions`, evaluated with Python's
short-circuiting; reading an unassigned instance attribute raises
`AttributeError`; a control is truthy when not `None`; a list is truthy when
non-empty. -/
def AlertDialogObj.assertCheck (d : AlertDialogObj) : Except PyErr Bool :=
  match d.titleSlot with
  | none => .error .attributeError
  | some t =>
    if t.isSome then .ok true
    else
      match d.contentSlot with
      | none => .error .attributeError
      | some c =>
        if c.isSome then .ok true
        else
          match d.actionsSlot with
          | none => .error .attributeError
          | some a => .ok (match a with
            | some l => !l.isEmpty
            | none => false)

/-- `AlertDialog.before_update` (lines 145-161): the assertion, then the
JSON serialization of the padding/shape/alignment values and — under
`isinstance` guards — of the two text styles.  Reading any of those instance
variables when unassigned raises `AttributeError`. -/
def AlertDialogObj.beforeUpdate (d : AlertDialogObj) : Except PyErr AlertDialogObj := do
  let ok ← d.assertCheck
  if ok then
    match d.jsonSlots with
    | none => .error .attributeError
    | some js =>
      let m := setAttrJson d.attrs "actionsPadding" (js.actionsPadding.map .jsonPad)
      let m := setAttrJson m "contentPadding" (js.contentPadding.map .jsonPad)
      let m := setAttrJson m "titlePadding" (js.titlePadding.map .jsonPad)
      let m := setAttrJson m "shape" (js.shapeVal.map .jsonBorder)
      let m := setAttrJson m "insetPadding" (js.insetPadding.map .jsonPad)
      let m := setAttrJson m "iconPadding" (js.iconPadding.map .jsonPad)
      let m := setAttrJson m "actionButtonPadding" (js.actionButtonPadding.map .jsonPad)
      let m := setAttrJson m "alignment" (js.alignment.map .jsonStruct)
      let m := match js.contentTextStyle with
        | some ts => setAttrJson m "contentTextStyle" (some (.jsonStyle ts))
        | none => m
      let m := match js.titleTextStyle with
        | some ts => setAttrJson m "titleTextStyle" (some (.jsonStyle ts))
        | none => m
      .ok { d with attrs := m }
  else .error .assertionError

/-- `AlertDialog.__init__` (lines 104-140), restricted to the modelled
parameters (`title`, `content`, `actions`); every other parameter keeps its
default, whose setter writes an unrelated attribute entry or nothing.  All
assignments go through the property setters, so no private instance slot is
ever assigned. -/
def AlertDialog.new (title content : Option Ctrl) (actions : Option (List Ctrl)) :
    AlertDialogObj :=
  let d : AlertDialogObj := ⟨[], none, none, none, none⟩
  let d := d.setTitle title
  let d := d.setContent content
  let d := d.setActions actions
  d

/-! ## Badge (badge.py) -/

/-- The state of a `Badge` instance: its attribute map and the instance
variables assigned by its setters (`content`, `offset`, `alignment`,
`padding`, `text_style`). -/
structure BadgeObj where
  attrs : AttrMap
  content : Option Ctrl
  offset : Option StructVal
  alignment : Option StructVal
  padding : Option PaddingVal
  textStyle : Option TextStyle

/-- `Badge.text` setter (line 133): `self._set_attr("labelText", value)`. -/
def BadgeObj.setText (b : BadgeObj) (v : Option String) : BadgeObj :=
  { b with attrs := setAttr b.attrs "labelText" (v.map .str) }

/-- `Badge.text` getter (line 129): `self._get_attr("labelText")`. -/
def BadgeObj.text (b : BadgeObj) : Option AttrVal :=
  getAttr b.attrs "labelText" .string none

/-- `Badge.padding` setter (line 211): `self.__padding = value`. -/
def BadgeObj.setPadding (b : BadgeObj) (v : Option PaddingVal) : BadgeObj :=
  { b with padding := v }

/-- `Badge.text_style` setter (line 249): `self.__text_style = value`. -/
def BadgeObj.setTextStyle (b : BadgeObj) (v : Option TextStyle) : BadgeObj :=
  { b with textStyle := v }

/-- `Badge.before_update` (lines 93-98): unconditionally JSON-serializes
`offset`, `alignment`, `padding` and `text_style`. -/
def BadgeObj.beforeUpdate (b : BadgeObj) : BadgeObj :=
  let m := setAttrJson b.attrs "offset" (b.offset.map .jsonStruct)
  let m := setAttrJson m "alignment" (b.alignment.map .jsonStruct)
  let m := setAttrJson m "padding" (b.padding.map .jsonPad)
  let m := setAttrJson m "textStyle" (b.textStyle.map .jsonStyle)
  { b with attrs := m }

/-- `Badge._get_children` (lines 100-104): a non-`None` content is tagged
`"content"` and returned as the only child; otherwise no children. -/
def BadgeObj.getChildren (b : BadgeObj) : List Ctrl :=
  match b.content with
  | some c => [c.setTag "content"]
  | none => []

/-! ## SafeArea (safe_area.py) and ConstrainedControl (constrained_control.py) -/

/-- The state of a `SafeArea` instance: its attribute map, the required
`content` control, the two minimum paddings, and the structured instance
variables serialized by `ConstrainedControl.before_update`. -/
structure SafeAreaObj where
  attrs : AttrMap
  content : Ctrl
  minimum : Option PaddingVal
  minimumPadding : Option PaddingVal
  rotate : Option StructVal
  scale : Option StructVal
  offset : Option StructVal
  animateOpacity : Option StructVal
  animateSize : Option StructVal
  animatePosition : Option StructVal
  animateRotation : Option StructVal
  animateScale : Option StructVal
  animateOffset : Option StructVal

/-- `ConstrainedControl.before_update` (constrained_control.py lines 84-94):
after the superclass hook (a no-op for the attributes modelled here), nine
unconditional JSON serializations.  It raises nothing. -/
def SafeAreaObj.ccBeforeUpdate (s : SafeAreaObj) : SafeAreaObj :=
  let m := setAttrJson s.attrs "rotate" (s.rotate.map .jsonStruct)
  let m := setAttrJson m "scale" (s.scale.map .jsonStruct)
  let m := setAttrJson m "offset" (s.offset.map .jsonStruct)
  let m := setAttrJson m "animateOpacity" (s.animateOpacity.map .jsonStruct)
  let m := setAttrJson m "animateSize" (s.animateSize.map .jsonStruct)
  let m := setAttrJson m "animatePosition" (s.animatePosition.map .jsonStruct)
  let m := setAttrJson m "animateRotation" (s.animateRotation.map .jsonStruct)
  let m := setAttrJson m "animateScale" (s.animateScale.map .jsonStruct)
  let m := setAttrJson m "animateOffset" (s.animateOffset.map .jsonStruct)
  { s with attrs := m }

/-- `SafeArea.before_update` (lines 104-108): the superclass hook, then
`assert self.__content.visible`, then the JSON serialization of `minimum`
and `minimum_padding`. -/
def SafeAreaObj.beforeUpdate (s : SafeAreaObj) : Except PyErr SafeAreaObj :=
  let s := s.ccBeforeUpdate
  if s.content.visible then
    let m := setAttrJson s.attrs "minimum" (s.minimum.map .jsonPad)
    let m := setAttrJson m "minimumPadding" (s.minimumPadding.map .jsonPad)
    .ok { s with attrs := m }
  else .error .assertionError

/-- `SafeArea._get_children` (lines 110-112): tags the content `"content"`
and returns it as the only child. -/
def SafeAreaObj.getChildren (s : SafeAreaObj) : List Ctrl :=
  [s.content.setTag "content"]

/-! ## AutoComplete (auto_complete.py) -/

/-- The state of an `AutoComplete` instance.  `suggestionsSlot` holds the
Python value of `self.__suggestions` (`none` models Python `None`); the
constructor always assigns it through the property setter. -/
structure AutoCompleteObj where
  attrs : AttrMap
  suggestionsSlot : Option (List AutoCompleteSuggestion)

/-- Python `value or []`: the left operand when truthy (a non-empty list),
otherwise the freshly built empty list. -/
def pyOrEmptyList (value : Option (List AutoCompleteSuggestion)) :
    Option (List AutoCompleteSuggestion) :=
  match value with
  | some l => if l.isEmpty then some [] else some l
  | none => some []

/-- `AutoComplete.suggestions` setter (lines 104-106):
`self.__suggestions = value or []`. -/
def AutoCompleteObj.setSuggestions (a : AutoCompleteObj)
    (value : Option (List AutoCompleteSuggestion)) : AutoCompleteObj :=
  { a with suggestionsSlot := pyOrEmptyList value }

/-- `AutoComplete.suggestions` getter (line 102): returns
`self.__suggestions`. -/
def AutoCompleteObj.suggestions (a : AutoCompleteObj) :
    Option (List AutoCompleteSuggestion) :=
  a.suggestionsSlot

/-- `AutoComplete.before_update` (lines 59-60):
`self._set_attr_json("suggestions", self.__suggestions)`. -/
def AutoCompleteObj.beforeUpdate (a : AutoCompleteObj) : AutoCompleteObj :=
  let m := setAttrJson a.attrs "suggestions" (a.suggestionsSlot.map .jsonSuggestions)
  { a with attrs := m }

/-- Modelled from the spec: the key a suggestion is displayed and filtered
under — per the `suggestions` docstring (auto_complete.py lines 97-100), if
only `value` is provided it is used as the fallback for a missing `key`; a
suggestion with neither is ignored. -/
def AutoCompleteSuggestion.displayKey (s : AutoCompleteSuggestion) : Option String :=
  match s.key with
  | some k => some k
  | none => s.value

/-- ASCII lowercasing of one character. -/
def lowerChar (c : Char) : Char :=
  if 65 ≤ c.toNat ∧ c.toNat ≤ 90 then Char.ofNat (c.toNat + 32) else c

/-- Lowercased character sequence of a string. -/
def lowerStr (s : String) : List Char :=
  s.toList.map lowerChar

/-- Whether the first character sequence occurs contiguously inside the
second. -/
def infixCheck : List Char → List Char → Bool
  | p, [] => p.isEmpty
  | p, c :: t => p.isPrefixOf (c :: t) || infixCheck p t

/-- Modelled from the spec: the client-side match of one suggestion against
the user's input (the filtration runs in the repository's Flutter client,
which is not under the sources) — the comparison is done in lowercase, so it
is case-insensitive; a suggestion with neither `key` nor `value` never
matches (it is dropped). -/
def suggestionMatches (input : String) (s : AutoCompleteSuggestion) : Bool :=
  match s.displayKey with
  | none => false
  | some k => infixCheck (lowerStr input) (lowerStr k)

/-- Modelled from the spec: the suggestions retained for display, given the
user's input. -/
def filterSuggestionsDisplay (input : String) (l : List AutoCompleteSuggestion) :
    List AutoCompleteSuggestion :=
  l.filter (suggestionMatches input)

/-! ## Flashlight (flashlight.py) -/

/-- The state of a `Flashlight` instance: `self.turned_on`, initialized to
`False`. -/
structure FlashlightObj where
  turnedOn : Bool
deriving DecidableEq

/-- The arguments of one `invoke_method` / `invoke_method_async` remote
call: the method name, `wait_for_result` and `wait_timeout`. -/
structure InvokeCall where
  methodName : String
  waitForResult : Bool
  waitTimeout : Option Int
deriving DecidableEq

/-- The outcome of one Flashlight operation: the remote call it issued, the
boolean it returned, and the instance state it left behind. -/
structure FlashResult where
  call : InvokeCall
  ret : Bool
  state : FlashlightObj
deriving DecidableEq

/-- `Flashlight._toggle_state` (lines 45-47):
`self.turned_on = on if ("1" == sr) else self.turned_on; return self.turned_on`. -/
def FlashlightObj.toggleState (f : FlashlightObj) (sr : String) (onArg : Bool) :
    Bool × FlashlightObj :=
  let f' : FlashlightObj := ⟨if "1" == sr then onArg else f.turnedOn⟩
  (f'.turnedOn, f')

/-- `Flashlight.turn_on` (lines 49-51): a blocking
`invoke_method("on", wait_for_result=True, wait_timeout=wait_timeout)`
whose result string `sr` is supplied by the transport, then
`_toggle_state(sr)`. -/
def FlashlightObj.turnOn (f : FlashlightObj) (waitTimeout : Option Int) (sr : String) :
    FlashResult :=
  let call : InvokeCall := ⟨"on", true, waitTimeout⟩
  let (r, f') := f.toggleState sr true
  ⟨call, r, f'⟩

/-- `Flashlight.turn_on_async` (lines 54-58): the awaited
`invoke_method_async("on", wait_for_result=True, wait_timeout=wait_timeout)`,
then `_toggle_state(sr)`. -/
def FlashlightObj.turnOnAsync (f : FlashlightObj) (waitTimeout : Option Int)
    (sr : String) : FlashResult :=
  let call : InvokeCall := ⟨"on", true, waitTimeout⟩
  let (r, f') := f.toggleState sr true
  ⟨call, r, f'⟩

/-- `Flashlight.turn_off` (lines 61-63): a blocking
`invoke_method("off", ...)`, then `_toggle_state(sr, False)`. -/
def FlashlightObj.turnOff (f : FlashlightObj) (waitTimeout : Option Int) (sr : String) :
    FlashResult :=
  let call : InvokeCall := ⟨"off", true, waitTimeout⟩
  let (r, f') := f.toggleState sr false
  ⟨call, r, f'⟩

/-- `Flashlight.turn_off_async` (lines 66-70): the awaited
`invoke_method_async("off", ...)`, then `_toggle_state(sr, False)`. -/
def FlashlightObj.turnOffAsync (f : FlashlightObj) (waitTimeout : Option Int)
    (sr : String) : FlashResult :=
  let call : InvokeCall := ⟨"off", true, waitTimeout⟩
  let (r, f') := f.toggleState sr false
  ⟨call, r, f'⟩

/-- `Flashlight.toggle` (lines 73-75):
`_func = self.turn_off if self.turned_on else self.turn_on; return _func(wait_timeout)`. -/
def FlashlightObj.toggle (f : FlashlightObj) (waitTimeout : Option Int) (sr : String) :
    FlashResult :=
  if f.turnedOn then f.turnOff waitTimeout sr else f.turnOn waitTimeout sr

/-- `Flashlight.toggle_async` (lines 78-81): awaits `turn_off_async` when
`turned_on`, else `turn_on_async`. -/
def FlashlightObj.toggleAsync (f : FlashlightObj) (waitTimeout : Option Int)
    (sr : String) : FlashResult :=
  if f.turnedOn then f.turnOffAsync waitTimeout sr else f.turnOnAsync waitTimeout sr

/-! ## Concrete objects used by witnesses and counterexamples -/

/-- A demonstration text style. -/
def tsDemo : TextStyle := ⟨0⟩

/-- An `AppBar` state whose `title_text_style` holds a value: empty attribute
map, no leading/title, an empty actions list. -/
def abDemo : AppBarObj := ⟨[], none, none, some [], some tsDemo, none, none⟩

/-- A demonstration child control with no tag and default visibility. -/
def ctrlDemo : Ctrl := ⟨none, none⟩

/-- A second demonstration child control. -/
def ctrlDemo2 : Ctrl := ⟨none, some true⟩

/-- A demonstration suggestion with a key and no value. -/
def suggDemo : AutoCompleteSuggestion := ⟨some "Apple", none⟩

/-! ## Attribute-store lemmas -/

theorem lookupAttr_removeAttr_self (m : AttrMap) (k : String) :
    lookupAttr (removeAttr m k) k = none := by
  induction m with
  | nil => rfl
  | cons hd tl ih =>
    obtain ⟨q, v⟩ := hd
    unfold removeAttr
    by_cases h : q = k
    · simp [h, ih]
    · simp [h, lookupAttr, ih]

theorem lookupAttr_removeAttr_ne (m : AttrMap) (k q : String) (h : q ≠ k) :
    lookupAttr (removeAttr m q) k = lookupAttr m k := by
  induction m with
  | nil => rfl
  | cons hd tl ih =>
    obtain ⟨p, v⟩ := hd
    unfold removeAttr
    by_cases h2 : p = q
    · subst h2
      simp [lookupAttr, h, ih]
    · simp [h2, lookupAttr, ih]

theorem lookupAttr_setAttr_self (m : AttrMap) (k : String) (v : Option AttrVal) :
    lookupAttr (setAttr m k v) k = v := by
  cases v with
  | none => exact lookupAttr_removeAttr_self m k
  | some a => simp [setAttr, lookupAttr]

theorem lookupAttr_setAttr_ne (m : AttrMap) (k q : String) (v : Option AttrVal)
    (h : q ≠ k) : lookupAttr (setAttr m q v) k = lookupAttr m k := by
  cases v with
  | none => exact lookupAttr_removeAttr_ne m k q h
  | some a => simp [setAttr, lookupAttr, h, lookupAttr_removeAttr_ne m k q h]

/-- `AppBar.before_update` writes only the three guarded style/shape
attributes; every other attribute entry is untouched. -/
theorem lookupAttr_appBar_beforeUpdate (ab : AppBarObj) (k : String)
    (h1 : ("titleTextStyle" : String) ≠ k) (h2 : ("toolbarTextStyle" : String) ≠ k)
    (h3 : ("shape" : String) ≠ k) :
    lookupAttr (ab.beforeUpdate).attrs k = lookupAttr ab.attrs k := by
  rcases ab with ⟨m, l, t, a, tts, tos, sh⟩
  cases tts <;> cases tos <;> cases sh <;>
    simp [AppBarObj.beforeUpdate, setAttrJson, lookupAttr_setAttr_ne, h1, h2, h3]

/-! ## Claim theorems -/

/-- Claim C1: the claim says `AlertDialog.before_update` raises exactly when
title, content and actions are all empty and passes otherwise.  In the code,
the title/content/actions setters store through `_set_attr`, so the private
instance attributes read by `before_update` are never assigned: for every
dialog built by the constructor — whatever title, content and actions were
supplied — `before_update` raises `AttributeError` at its very first read. -/
theorem alertDialog_beforeUpdate_always_raises_attributeError
    (title content : Option Ctrl) (actions : Option (List Ctrl)) :
    (AlertDialog.new title content actions).beforeUpdate = .error .attributeError := by
  rfl

/-- Claim C2: the claim says the `AppBar.toolbar_opacity` setter accepts a
number inside `[0,1]` and raises outside.  The code's chained comparison
`0 >= value >= 1` is unsatisfiable, so the setter raises an assertion error
for every non-`None` number — including every value inside `[0,1]` — while
`None` is always accepted. -/
theorem appBar_setToolbarOpacity_rejects_every_number :
    (∀ (ab : AppBarObj) (q : Rat),
      ab.setToolbarOpacity (some q) = .error .assertionError)
    ∧ (∀ ab : AppBarObj, ∃ ab2, ab.setToolbarOpacity none = .ok ab2) := by
  constructor
  · intro ab q
    have hneg : ¬ ((0 : Rat) ≥ q ∧ q ≥ 1) := by
      rintro ⟨h1, h2⟩
      exact absurd (le_trans h2 h1) (by norm_num)
    simp [AppBarObj.setToolbarOpacity, hneg]
  · intro ab
    exact ⟨_, rfl⟩

/-- Claim C3: setting an attribute then reading it through its property
getter returns the stored value (shown for `AppBar.bgcolor` and
`Badge.text`, over every prior state and every value including `None`),
except for the declared coercion: a numeric value stored then read back
through a `data_type="float"` getter (`AppBar.elevation`) comes back as a
float. -/
theorem attribute_roundtrip_with_float_coercion :
    (∀ (ab : AppBarObj) (v : Option String),
      (ab.setBgcolor v).bgcolor = v.map .str)
    ∧ (∀ (b : BadgeObj) (v : Option String),
      (b.setText v).text = v.map .str)
    ∧ (∀ (ab : AppBarObj) (n : Int),
      (ab.setElevation (some (.intN n))).elevation = some (.floatVal (n : Rat)))
    ∧ (∀ (ab : AppBarObj) (q : Rat),
      (ab.setElevation (some (.floatN q))).elevation = some (.floatVal q)) := by
  refine ⟨?_, ?_, ?_, ?_⟩
  · intro ab v
    cases v <;>
      simp [AppBarObj.setBgcolor, AppBarObj.bgcolor, getAttr,
        lookupAttr_setAttr_self, coerce]
  · intro b v
    cases v <;>
      simp [BadgeObj.setText, BadgeObj.text, getAttr,
        lookupAttr_setAttr_self, coerce]
  · intro ab n
    simp [AppBarObj.setElevation, AppBarObj.elevation, getAttr, NumVal.toAttr,
      lookupAttr_setAttr_self, coerce]
  · intro ab q
    simp [AppBarObj.setElevation, AppBarObj.elevation, getAttr, NumVal.toAttr,
      lookupAttr_setAttr_self, coerce]

/-- Counterexample to claim C4 as stated: an `AppBar` whose
`title_text_style` was serialized once, then set to `None`; after another
`before_update` the `"titleTextStyle"` attribute is still present in the
serialized map, because the serialization is guarded by `isinstance` and a
`None` style is simply skipped, never cleared. -/
theorem appBar_titleTextStyle_stale_after_none :
    lookupAttr (((abDemo.beforeUpdate).setTitleTextStyle none).beforeUpdate).attrs
      "titleTextStyle" ≠ none := by
  decide

/-- Claim C4 (amended): setting an optional color, padding or style property
to `None` leaves that attribute absent from the serialized map after
`before_update`, including when it previously held a value — for properties
stored directly through `_set_attr` (e.g. `AppBar.bgcolor`) and for
structured properties serialized unconditionally (e.g. `Badge.padding`,
`Badge.text_style`); properties serialized under an `isinstance` guard
(`AppBar.title_text_style`, `toolbar_text_style`, `shape`) are excluded,
since a previously serialized value is left in the map. -/
theorem setting_none_clears_unguarded_attributes :
    (∀ ab : AppBarObj,
      lookupAttr ((ab.setBgcolor none).beforeUpdate).attrs "bgcolor" = none)
    ∧ (∀ b : BadgeObj,
      lookupAttr ((b.setPadding none).beforeUpdate).attrs "padding" = none)
    ∧ (∀ b : BadgeObj,
      lookupAttr ((b.setTextStyle none).beforeUpdate).attrs "textStyle" = none) := by
  refine ⟨?_, ?_, ?_⟩
  · intro ab
    rw [lookupAttr_appBar_beforeUpdate _ _ (by decide) (by decide) (by decide)]
    simp [AppBarObj.setBgcolor, lookupAttr_removeAttr_self, setAttr]
  · intro b
    rcases b with ⟨m, c, off, al, pad, ts⟩
    simp only [BadgeObj.setPadding, BadgeObj.beforeUpdate, setAttrJson]
    rw [lookupAttr_setAttr_ne _ _ _ _ (by decide), lookupAttr_setAttr_self]
    rfl
  · intro b
    rcases b with ⟨m, c, off, al, pad, ts⟩
    simp only [BadgeObj.setTextStyle, BadgeObj.beforeUpdate, setAttrJson]
    rw [lookupAttr_setAttr_self]
    rfl

/-- Claim C5: `_get_children` excludes `None` child slots, tags each child
with its role string and preserves the order of list-valued slots — proved
for `AppBar` with a list of actions and for `Badge` — but for an `AppBar`
whose `actions` were never set or were set to `None` (as in a default
`AppBar()`), `_get_children` iterates over `None` and raises `TypeError`
instead. -/
theorem appBar_getChildren_order_and_none_actions_typeError :
    (∀ (m : AttrMap) (l t : Option Ctrl) (acts : List Ctrl)
        (tts tos : Option TextStyle) (sh : Option OutlinedBorder),
      (AppBarObj.mk m l t (some acts) tts tos sh).getChildren =
        .ok ((l.map (fun c => c.setTag "leading")).toList
          ++ (t.map (fun c => c.setTag "title")).toList
          ++ acts.map (fun c => c.setTag "action")))
    ∧ (∀ (m : AttrMap) (l t : Option Ctrl) (tts tos : Option TextStyle)
        (sh : Option OutlinedBorder),
      (AppBarObj.mk m l t none tts tos sh).getChildren = .error .typeError)
    ∧ (∃ ab : AppBarObj, AppBar.newDefault = .ok ab ∧ ab.actions = none
        ∧ ab.getChildren = .error .typeError)
    ∧ (∀ (m : AttrMap) (c : Option Ctrl) (off al : Option StructVal)
        (pad : Option PaddingVal) (ts : Option TextStyle),
      (BadgeObj.mk m c off al pad ts).getChildren =
        (c.map (fun x => x.setTag "content")).toList) := by
  refine ⟨?_, ?_, ?_, ?_⟩
  · intro m l t acts tts tos sh
    cases l <;> cases t <;> simp [AppBarObj.getChildren]
  · intro m l t tts tos sh
    cases l <;> cases t <;> simp [AppBarObj.getChildren]
  · exact ⟨_, rfl, rfl, rfl⟩
  · intro m c off al pad ts
    cases c <;> simp [BadgeObj.getChildren]

/-- Claim C6: whenever the string returned by the remote `invoke_method`
call is anything other than `"1"`, every Flashlight operation leaves the
`turned_on` flag unchanged and returns that unchanged value. -/
theorem flashlight_state_unchanged_on_non_one_result
    (f : FlashlightObj) (wt : Option Int) (sr : String) (onArg : Bool)
    (h : sr ≠ "1") :
    f.toggleState sr onArg = (f.turnedOn, f)
    ∧ (f.turnOn wt sr).state = f ∧ (f.turnOn wt sr).ret = f.turnedOn
    ∧ (f.turnOff wt sr).state = f ∧ (f.turnOff wt sr).ret = f.turnedOn
    ∧ (f.turnOnAsync wt sr).state = f ∧ (f.turnOnAsync wt sr).ret = f.turnedOn
    ∧ (f.turnOffAsync wt sr).state = f ∧ (f.turnOffAsync wt sr).ret = f.turnedOn
    ∧ (f.toggle wt sr).state = f ∧ (f.toggle wt sr).ret = f.turnedOn
    ∧ (f.toggleAsync wt sr).state = f ∧ (f.toggleAsync wt sr).ret = f.turnedOn := by
  rcases f with ⟨b⟩
  have hb : ("1" == sr) = false := by
    rw [beq_eq_false_iff_ne]
    exact fun e => h e.symm
  cases b <;>
    simp [FlashlightObj.toggleState, FlashlightObj.turnOn, FlashlightObj.turnOnAsync,
      FlashlightObj.turnOff, FlashlightObj.turnOffAsync, FlashlightObj.toggle,
      FlashlightObj.toggleAsync, hb]

/-- Witness for C6 at a concrete input: a flashlight that is off, a transport
result `"0"`. -/
theorem flashlight_state_unchanged_witness :
    (FlashlightObj.mk false).toggleState "0" true = (false, FlashlightObj.mk false)
    ∧ ((FlashlightObj.mk false).turnOn (some 5) "0").state = FlashlightObj.mk false := by
  have h := flashlight_state_unchanged_on_non_one_result
    (FlashlightObj.mk false) (some 5) "0" true (by decide)
  exact ⟨h.1, h.2.1⟩

/-- Claim C7: for each Flashlight operation pair, the blocking and
asynchronous variants issue the same remote call (`"on"` or `"off"`, with
`wait_for_result=True` and the same `wait_timeout`) and, given the same
transport result string, perform the same state transition and return the
same boolean. -/
theorem flashlight_sync_async_equivalence
    (f : FlashlightObj) (wt : Option Int) (sr : String) :
    f.turnOn wt sr = f.turnOnAsync wt sr
    ∧ f.turnOff wt sr = f.turnOffAsync wt sr
    ∧ f.toggle wt sr = f.toggleAsync wt sr
    ∧ (f.turnOn wt sr).call = InvokeCall.mk "on" true wt
    ∧ (f.turnOff wt sr).call = InvokeCall.mk "off" true wt := by
  have h3 : f.toggle wt sr = f.toggleAsync wt sr := by
    rcases f with ⟨b⟩
    cases b <;> rfl
  exact ⟨rfl, rfl, h3, rfl, rfl⟩

/-- Claim C8: the suggestions shown for a given user input are filtered
case-insensitively (two inputs with the same lowercasing select the same
suggestions), and a suggestion with neither `key` nor `value` is dropped:
every displayed suggestion has at least one of them set. -/
theorem autocomplete_filter_case_insensitive_and_drops_invalid :
    (∀ (i1 i2 : String) (l : List AutoCompleteSuggestion),
      lowerStr i1 = lowerStr i2 →
      filterSuggestionsDisplay i1 l = filterSuggestionsDisplay i2 l)
    ∧ (∀ (inp : String) (l : List AutoCompleteSuggestion)
        (s : AutoCompleteSuggestion), s ∈ filterSuggestionsDisplay inp l →
      s.key ≠ none ∨ s.value ≠ none) := by
  constructor
  · intro i1 i2 l h
    unfold filterSuggestionsDisplay
    congr 1
    funext s
    unfold suggestionMatches
    rw [h]
  · intro inp l s hs
    unfold filterSuggestionsDisplay at hs
    have hm := (List.mem_filter.mp hs).2
    rcases hk : s.key with _ | k
    · rcases hv : s.value with _ | v
      · exfalso
        unfold suggestionMatches AutoCompleteSuggestion.displayKey at hm
        rw [hk, hv] at hm
        simp at hm
      · right
        simp [hv]
    · left
      simp [hk]

/-- Witness for C8 at concrete inputs: the inputs `"APP"` and `"app"` and
the suggestion `⟨some "Apple", none⟩`. -/
theorem autocomplete_filter_witness :
    filterSuggestionsDisplay "APP" [suggDemo] = filterSuggestionsDisplay "app" [suggDemo]
    ∧ (suggDemo.key ≠ none ∨ suggDemo.value ≠ none) := by
  refine ⟨?_, ?_⟩
  · exact autocomplete_filter_case_insensitive_and_drops_invalid.1
      "APP" "app" [suggDemo] (by decide)
  · exact autocomplete_filter_case_insensitive_and_drops_invalid.2
      "app" [suggDemo] suggDemo (by decide)

/-- Claim C9: `SafeArea.before_update` raises an assertion error exactly
when the content control's visible flag is false, and `_get_children`
always returns exactly one child — the content control tagged with role
`"content"` — regardless of any other property settings. -/
theorem safeArea_beforeUpdate_visible_iff_and_children (s : SafeAreaObj) :
    (s.beforeUpdate = .error .assertionError ↔ s.content.visible = false)
    ∧ s.getChildren = [s.content.setTag "content"] := by
  constructor
  · cases hv : s.content.visible <;>
      simp [SafeAreaObj.beforeUpdate, SafeAreaObj.ccBeforeUpdate, hv]
  · rfl

/-- Claim C10: after any assignment to `AutoComplete.suggestions` (including
assigning `None`), reading the property returns a list, never `None`, and
`before_update` serializes exactly that list. -/
theorem autocomplete_suggestions_never_none (a : AutoCompleteObj)
    (v : Option (List AutoCompleteSuggestion)) :
    (a.setSuggestions v).suggestions = some (v.getD [])
    ∧ lookupAttr ((a.setSuggestions v).beforeUpdate).attrs "suggestions"
        = some (.jsonSuggestions (v.getD [])) := by
  have hs : pyOrEmptyList v = some (v.getD []) := by
    rcases v with _ | l
    · rfl
    · cases l <;> simp [pyOrEmptyList]
  constructor
  · simp [AutoCompleteObj.setSuggestions, AutoCompleteObj.suggestions, hs]
  · simp [AutoCompleteObj.setSuggestions, AutoCompleteObj.beforeUpdate, setAttrJson,
      hs, lookupAttr_setAttr_self]
